import Mathlib

/-!
Shallow embedding of the UMI bridge server (`Bridge.py`).

The bridge relays audio between a websocket-connected device and a LiveKit
room.  We embed, faithfully to the Python source:

* `DeviceSession` with its fields `session_id`, `room`, `audio_source`,
  `is_active`, `audio_frames_sent`, and its operations `start_session`,
  `end_session`, `process_audio_chunk` and `_forward_agent_audio`;
* `UMIBridge._handle_message` and `UMIBridge.handle_device` including the
  receive loop and its `finally` cleanup block;
* the int16 little-endian byte codec implicit in `np.frombuffer` /
  `tobytes`, and the `samples[::2]` stereo decimation.

Environment outcomes that in Python arise as exceptions from the LiveKit
adapter or the socket (connect failure, publish failure, capture failure,
send failure) are passed in as explicit booleans; an escaping exception is
modelled by a `raised` flag.  `send_message` swallows transport errors in
the source, so an emitted `OutMsg` models an attempted send.  Logging is
not modelled.
-/

/-- Decode two bytes (little-endian) as a signed 16-bit value, as
`np.frombuffer(_, dtype=np.int16)` does on a little-endian host. -/
def sint16 (lo hi : Nat) : Int :=
  if lo + 256 * hi < 32768 then ((lo + 256 * hi : Nat) : Int)
  else ((lo + 256 * hi : Nat) : Int) - 65536

/-- Decode a byte buffer as a sequence of signed 16-bit samples.
`np.frombuffer(audio_data, dtype=np.int16)` raises `ValueError` when the
buffer length is not a multiple of 2; that failure is `none` here. -/
def int16OfBytes? : List Nat → Option (List Int)
  | [] => some []
  | lo :: hi :: rest => (int16OfBytes? rest).map (fun xs => sint16 lo hi :: xs)
  | [_] => none

/-- Re-encode signed 16-bit samples as little-endian bytes (`tobytes`). -/
def bytesOfInt16 : List Int → List Nat
  | [] => []
  | v :: rest =>
    (v % 65536).toNat % 256 :: (v % 65536).toNat / 256 :: bytesOfInt16 rest

/-- The numpy slice `samples[::2]`: every other sample, starting at 0. -/
def everyOther : List Int → List Int
  | [] => []
  | [x] => [x]
  | x :: _ :: rest => x :: everyOther rest

/-- Left-channel decimation described directly on the byte buffer: keep the
two bytes of samples 0, 2, 4, …  Used to state what `samples[::2]` does to
the raw payload. -/
def everyOtherPair : List Nat → List Nat
  | lo :: hi :: _ :: _ :: rest => lo :: hi :: everyOtherPair rest
  | [lo, hi] => [lo, hi]
  | _ => []

/-- Messages the bridge sends to the device (JSON control messages and raw
binary playback frames), from `send_message` call sites and
`websocket.send(samples.tobytes())`. -/
inductive OutMsg where
  | ready : OutMsg
  | sessionStarted (session_id : String) : OutMsg
  | sessionEnded (session_id : Option String) (frames_sent : Nat) : OutMsg
  | agentSpeakingStart : OutMsg
  | agentSpeakingEnd : OutMsg
  | binaryFrame (payload : List Nat) : OutMsg
deriving Repr, DecidableEq

/-- The `rtc.Room` handle as the session sees it: created by `rtc.Room()`,
then connected by `room.connect` (which may fail). -/
structure Room where
  connected : Bool
deriving Repr, DecidableEq

/-- State of `DeviceSession.__init__`: per-device session state (`Bridge.py` 48-55). -/
structure DeviceSession where
  device_id : Nat
  session_id : Option String
  room : Option Room
  audio_source : Option Unit
  is_active : Bool
  audio_frames_sent : Nat
deriving Repr, DecidableEq

/-- A fresh session as built by `DeviceSession.__init__`. -/
def DeviceSession.new (device_id : Nat) : DeviceSession :=
  { device_id := device_id
    session_id := none
    room := none
    audio_source := none
    is_active := false
    audio_frames_sent := 0 }

/-- Result of an operation that may send messages and may raise. -/
structure StepOut where
  st : DeviceSession
  out : List OutMsg
  raised : Bool
deriving Repr, DecidableEq

/-- Embeds `DeviceSession.start_session` (`Bridge.py` 57-100).  Field writes in
source order: `session_id`, `is_active`, `audio_frames_sent` are set first;
a fresh room object is installed; `room.connect` may raise (re-raised by
the source after logging); on success the audio source is created, the
track published (`publish_track` may raise), and `session_started` sent. -/
def DeviceSession.start_session (s : DeviceSession) (sid : String)
    (connectOk publishOk : Bool) : StepOut :=
  let s1 := { s with session_id := some sid, is_active := true, audio_frames_sent := 0 }
  let s2 := { s1 with room := some { connected := false } }
  if connectOk then
    let s3 := { s2 with room := some { connected := true } }
    let s4 := { s3 with audio_source := some () }
    if publishOk then
      { st := s4, out := [OutMsg.sessionStarted sid], raised := false }
    else
      { st := s4, out := [], raised := true }
  else
    { st := s2, out := [], raised := true }

/-- Result of `end_session` (never raises: `send_message` swallows errors
and `disconnect` is safe per the adapter contract). -/
structure EndOut where
  st : DeviceSession
  out : List OutMsg
deriving Repr, DecidableEq

/-- Embeds `DeviceSession.end_session` (`Bridge.py` 102-125): no-op unless active;
otherwise clear `is_active`, disconnect and drop the room, drop the audio
source, send `session_ended` with the current `session_id` and frame
counter, then clear `session_id`. -/
def DeviceSession.end_session (s : DeviceSession) : EndOut :=
  if s.is_active then
    let s1 := { s with is_active := false }
    let s2 := { s1 with room := none }
    let s3 := { s2 with audio_source := none }
    let msg := OutMsg.sessionEnded s3.session_id s3.audio_frames_sent
    let s4 := { s3 with session_id := none }
    { st := s4, out := [msg] }
  else
    { st := s, out := [] }

/-- Result of `process_audio_chunk`: the new state and whether the frame
was forwarded to the room (i.e. `capture_frame` was reached and succeeded). -/
structure ChunkOut where
  st : DeviceSession
  forwarded : Bool
deriving Repr, DecidableEq

/-- Embeds `DeviceSession.process_audio_chunk` (`Bridge.py` 127-152): dropped
unless active with an audio source; decode as int16 (raises on odd length,
caught by the `except`), capture into the room (`captureOk` models
`capture_frame` succeeding), and only then increment `audio_frames_sent`.
All failures are caught inside, so this never raises. -/
def DeviceSession.process_audio_chunk (s : DeviceSession) (audio_data : List Nat)
    (captureOk : Bool) : ChunkOut :=
  if s.is_active = false ∨ s.audio_source = none then
    { st := s, forwarded := false }
  else
    match int16OfBytes? audio_data with
    | none => { st := s, forwarded := false }
    | some _pcm =>
      if captureOk then
        { st := { s with audio_frames_sent := s.audio_frames_sent + 1 }, forwarded := true }
      else
        { st := s, forwarded := false }

/-- One event on the remote-frame stream consumed by
`_forward_agent_audio`: either a received frame (with the outcome of the
subsequent `websocket.send`, `false` meaning `ConnectionClosed`, which the
source catches and turns into `break`), or the stream raising (any other
forwarding error, caught by the outer `except`). -/
inductive StreamEvent where
  | frame (num_channels : Nat) (data : List Nat) (sendOk : Bool) : StreamEvent
  | streamFault : StreamEvent
deriving Repr, DecidableEq

/-- The payload `_forward_agent_audio` sends for one frame (`Bridge.py`
164-176): decode as int16, decimate with `samples[::2]` when
`num_channels == 2`, re-encode with `tobytes`.  `none` models the decode
raising (caught by the outer `except`, ending the loop). -/
def forwardPayload? (num_channels : Nat) (data : List Nat) : Option (List Nat) :=
  (int16OfBytes? data).map fun samples =>
    bytesOfInt16 (if num_channels = 2 then everyOther samples else samples)

/-- The `async for` body of `_forward_agent_audio`: forward each frame to
the device, stopping at a decode fault (outer `except`), a closed socket
(`break`), or the stream raising. -/
def forwardLoop : List StreamEvent → List OutMsg
  | [] => []
  | StreamEvent.streamFault :: _ => []
  | StreamEvent.frame nc data sendOk :: rest =>
    match forwardPayload? nc data with
    | none => []
    | some payload =>
      if sendOk then OutMsg.binaryFrame payload :: forwardLoop rest
      else []

/-- Embeds `DeviceSession._forward_agent_audio` (`Bridge.py` 154-187):
`agent_speaking_start` first, then the forwarding loop inside `try`, and
`agent_speaking_end` in the `finally` block however the loop ends. -/
def forward_agent_audio (events : List StreamEvent) : List OutMsg :=
  OutMsg.agentSpeakingStart :: (forwardLoop events ++ [OutMsg.agentSpeakingEnd])

/-- A parsed device→bridge text message, after `json.loads` and the
`msg.get('type')` dispatch in `_handle_message`.  `invalidJson` is a
`JSONDecodeError` (caught and logged); `unknown` is a well-formed message
whose type matches no branch. -/
inductive TextMsg where
  | deviceInfo (device_id : String) : TextMsg
  | startSession (session_id : String) : TextMsg
  | endSession : TextMsg
  | unknown : TextMsg
  | invalidJson : TextMsg
deriving Repr, DecidableEq

/-- A message arriving on the device websocket: binary audio or text. -/
inductive InMsg where
  | binary (data : List Nat) : InMsg
  | text (m : TextMsg) : InMsg
deriving Repr, DecidableEq

/-- Environment outcomes for one message: whether `room.connect`,
`publish_track` and `capture_frame` would succeed if reached. -/
structure Env where
  connectOk : Bool
  publishOk : Bool
  captureOk : Bool
deriving Repr, DecidableEq

/-- Embeds `UMIBridge._handle_message` (`Bridge.py` 236-271).  Binary goes to
`process_audio_chunk` (never raises out); text is dispatched by type.  The
`try` there catches only `JSONDecodeError`, so an exception raised by
`start_session` escapes (`raised := true`). -/
def handleMessage (s : DeviceSession) (m : InMsg) (env : Env) : StepOut :=
  match m with
  | InMsg.binary data =>
    { st := (s.process_audio_chunk data env.captureOk).st, out := [], raised := false }
  | InMsg.text t =>
    match t with
    | TextMsg.deviceInfo _ => { st := s, out := [OutMsg.ready], raised := false }
    | TextMsg.startSession sid => s.start_session sid env.connectOk env.publishOk
    | TextMsg.endSession =>
      let e := s.end_session
      { st := e.st, out := e.out, raised := false }
    | TextMsg.unknown => { st := s, out := [], raised := false }
    | TextMsg.invalidJson => { st := s, out := [], raised := false }

/-- The `async for message in websocket` receive loop of `handle_device`:
process messages in order until one raises (which aborts the loop and is
caught by the surrounding `except`) or the script is exhausted. -/
def runLoop (s : DeviceSession) : List (InMsg × Env) → StepOut
  | [] => { st := s, out := [], raised := false }
  | (m, env) :: rest =>
    let r := handleMessage s m env
    if r.raised then { st := r.st, out := r.out, raised := true }
    else
      let r2 := runLoop r.st rest
      { st := r2.st, out := r.out ++ r2.out, raised := r2.raised }

/-- The bridge's connection registry `self.devices`. -/
structure UMIBridge where
  devices : List (Nat × DeviceSession)
deriving Repr, DecidableEq

/-- Registry removal `del self.devices[device_id]` (guarded by `device_id in self.devices`). -/
def UMIBridge.delDevice (b : UMIBridge) (k : Nat) : UMIBridge :=
  { devices := b.devices.filter fun p => p.1 ≠ k }

/-- Registry lookup by device id. -/
def UMIBridge.lookupDevice (b : UMIBridge) (k : Nat) : Option DeviceSession :=
  (b.devices.find? fun p => p.1 = k).map Prod.snd

/-- How the receive loop itself ends when no handler exception aborts it:
the peer closes the socket cleanly (the iterator finishes) or abnormally /
with an I/O error (`ConnectionClosed` raised and caught).  Both `except`
branches of `handle_device` only log, so the mode has no state effect. -/
inductive ConnEnd where
  | peerClosed : ConnEnd
  | ioFault : ConnEnd
deriving Repr, DecidableEq

/-- Result of one full `handle_device` call: the bridge registry, the
session object at exit, and everything sent to the device. -/
structure RunOut where
  bridge : UMIBridge
  st : DeviceSession
  out : List OutMsg
deriving Repr, DecidableEq

/-- Embeds `UMIBridge.handle_device` (`Bridge.py` 205-234): create a fresh
session, register it, run the receive loop over the incoming script, and
in the `finally` block call `end_session` if the session is active and
delete the registry entry — identically for every termination mode
(handler exception, clean close, or `ConnectionClosed`). -/
def UMIBridge.handle_device (b : UMIBridge) (device_id : Nat)
    (script : List (InMsg × Env)) (_ce : ConnEnd) : RunOut :=
  let session := DeviceSession.new device_id
  let b1 : UMIBridge := { devices := (device_id, session) :: b.devices }
  let r := runLoop session script
  let cleanup : DeviceSession × List OutMsg :=
    if r.st.is_active then
      let e := r.st.end_session
      (e.st, e.out)
    else (r.st, [])
  let b2 := b1.delDevice device_id
  { bridge := b2, st := cleanup.1, out := r.out ++ cleanup.2 }

/-- Run a list of audio chunks (payload, `capture_frame` outcome) through
`process_audio_chunk`, as the receive loop does for binary messages. -/
def runChunks (s : DeviceSession) : List (List Nat × Bool) → DeviceSession
  | [] => s
  | (d, cap) :: rest => runChunks (s.process_audio_chunk d cap).st rest

/-- Session states reachable from creation through completed operations of
the source: `__init__`, `start_session` (with any environment outcome,
including the state left behind when it raises), `end_session`,
`process_audio_chunk`. -/
inductive Reachable : DeviceSession → Prop where
  | init (d : Nat) : Reachable (DeviceSession.new d)
  | start (s : DeviceSession) (sid : String) (cOk pOk : Bool) :
      Reachable s → Reachable (s.start_session sid cOk pOk).st
  | ended (s : DeviceSession) : Reachable s → Reachable s.end_session.st
  | audio (s : DeviceSession) (d : List Nat) (cap : Bool) :
      Reachable s → Reachable (s.process_audio_chunk d cap).st

/-! ## Helper lemmas -/

/-- After `end_session`, the session is never active: either it was active
and the transition cleared the flag, or it was already inactive. -/
theorem end_session_st_is_active (s : DeviceSession) :
    s.end_session.st.is_active = false := by
  cases hb : s.is_active <;> simp [DeviceSession.end_session, hb]

/-- Calling `end_session` on an inactive session is the identity with no output. -/
theorem end_session_of_inactive (s : DeviceSession) (h : s.is_active = false) :
    s.end_session = { st := s, out := [] } := by
  simp [DeviceSession.end_session, h]

/-- The operation `process_audio_chunk` touches only the frame counter. -/
theorem process_audio_chunk_preserves (s : DeviceSession) (d : List Nat) (cap : Bool) :
    (s.process_audio_chunk d cap).st.session_id = s.session_id ∧
    (s.process_audio_chunk d cap).st.room = s.room ∧
    (s.process_audio_chunk d cap).st.audio_source = s.audio_source ∧
    (s.process_audio_chunk d cap).st.is_active = s.is_active ∧
    (s.process_audio_chunk d cap).st.device_id = s.device_id := by
  unfold DeviceSession.process_audio_chunk
  split
  · exact ⟨rfl, rfl, rfl, rfl, rfl⟩
  · split
    · exact ⟨rfl, rfl, rfl, rfl, rfl⟩
    · split
      · exact ⟨rfl, rfl, rfl, rfl, rfl⟩
      · exact ⟨rfl, rfl, rfl, rfl, rfl⟩

/-- On an active session with an audio source, `process_audio_chunk`
increments the counter exactly when the decode succeeds and the capture
succeeds, and in exactly that case the frame is forwarded. -/
theorem process_audio_chunk_active (s : DeviceSession) (d : List Nat) (cap : Bool)
    (ha : s.is_active = true) (hs : s.audio_source = some ()) :
    s.process_audio_chunk d cap =
      { st := { s with audio_frames_sent :=
                  s.audio_frames_sent +
                    (if (int16OfBytes? d).isSome && cap then 1 else 0) },
        forwarded := (int16OfBytes? d).isSome && cap } := by
  unfold DeviceSession.process_audio_chunk
  rw [if_neg (by simp [ha, hs])]
  cases hr : int16OfBytes? d <;> cases cap <;> simp [hr]

/-- Running a list of chunks on an active session with an audio source
adds to the counter exactly the number of chunks whose decode and capture
both succeed, and changes nothing else. -/
theorem runChunks_active (chunks : List (List Nat × Bool)) : ∀ s : DeviceSession,
    s.is_active = true → s.audio_source = some () →
    runChunks s chunks =
      { s with audio_frames_sent :=
          s.audio_frames_sent +
            chunks.countP (fun c => (int16OfBytes? c.1).isSome && c.2) } := by
  induction chunks with
  | nil =>
    intro s _ _
    simp [runChunks]
  | cons c rest ih =>
    intro s ha hs
    obtain ⟨d, cap⟩ := c
    rw [runChunks, process_audio_chunk_active s d cap ha hs]
    dsimp only
    rw [ih { s with audio_frames_sent :=
          s.audio_frames_sent + if ((int16OfBytes? d).isSome && cap) = true then 1 else 0 }
        ha hs,
      List.countP_cons]
    dsimp only
    congr 1
    cases hr : int16OfBytes? d <;> cases cap <;> simp [hr] <;> omega

/-- Splitting the receive loop at a point it reaches without raising. -/
theorem runLoop_append (l1 l2 : List (InMsg × Env)) : ∀ s : DeviceSession,
    (runLoop s l1).raised = false →
    runLoop s (l1 ++ l2) =
      { st := (runLoop (runLoop s l1).st l2).st,
        out := (runLoop s l1).out ++ (runLoop (runLoop s l1).st l2).out,
        raised := (runLoop (runLoop s l1).st l2).raised } := by
  induction l1 with
  | nil =>
    intro s _
    simp [runLoop]
  | cons p rest ih =>
    intro s h
    obtain ⟨m, env⟩ := p
    cases hr : (handleMessage s m env).raised with
    | true =>
      rw [runLoop] at h
      simp [hr] at h
    | false =>
      have hrest : (runLoop (handleMessage s m env).st rest).raised = false := by
        rw [runLoop] at h
        simpa [hr] using h
      rw [List.cons_append, runLoop, runLoop]
      simp only [hr, if_neg Bool.false_ne_true, Bool.false_eq_true, if_false]
      rw [ih _ hrest]
      simp [List.append_assoc]

/-- Deleting a device id from the registry makes its lookup fail. -/
theorem lookupDevice_delDevice (b : UMIBridge) (k : Nat) :
    (b.delDevice k).lookupDevice k = none := by
  unfold UMIBridge.delDevice UMIBridge.lookupDevice
  induction b.devices with
  | nil => rfl
  | cons a rest ih =>
    by_cases h : a.1 = k
    · simpa [List.filter_cons, h] using ih
    · simpa [List.filter_cons, h, List.find?_cons] using ih

/-- The int16 encode of a decoded byte pair restores the two bytes. -/
theorem sint16_emod_toNat (lo hi : Nat) (hlo : lo < 256) (hhi : hi < 256) :
    ((sint16 lo hi) % 65536).toNat = lo + 256 * hi := by
  unfold sint16
  split <;> omega

/-- Encoding step on one decoded sample. -/
theorem bytesOfInt16_cons_pair (lo hi : Nat) (xs : List Int)
    (hlo : lo < 256) (hhi : hi < 256) :
    bytesOfInt16 (sint16 lo hi :: xs) = lo :: hi :: bytesOfInt16 xs := by
  rw [bytesOfInt16, sint16_emod_toNat lo hi hlo hhi]
  have h1 : (lo + 256 * hi) % 256 = lo := by omega
  have h2 : (lo + 256 * hi) / 256 = hi := by omega
  rw [h1, h2]

/-- A buffer with an odd number of bytes fails to decode
(`np.frombuffer` raises `ValueError`). -/
theorem int16OfBytes_odd : ∀ d : List Nat, d.length % 2 = 1 → int16OfBytes? d = none
  | [], h => by simp at h
  | [_], _ => rfl
  | _ :: _ :: rest, h => by
    have h' : rest.length % 2 = 1 := by
      simp only [List.length_cons] at h
      omega
    rw [int16OfBytes?, int16OfBytes_odd rest h']
    rfl

/-- A buffer with an even number of in-range bytes decodes, and re-encoding
the decoded samples restores the buffer byte-exactly. -/
theorem int16_decode_encode : ∀ d : List Nat, (∀ b ∈ d, b < 256) → d.length % 2 = 0 →
    (int16OfBytes? d).map bytesOfInt16 = some d
  | [], _, _ => rfl
  | [_], _, h => by simp at h
  | lo :: hi :: rest, hb, h => by
    have hb' : ∀ b ∈ rest, b < 256 := fun b hbm => hb b (by simp [hbm])
    have h' : rest.length % 2 = 0 := by
      simp only [List.length_cons] at h
      omega
    have ih := int16_decode_encode rest hb' h'
    cases hr : int16OfBytes? rest with
    | none => rw [hr] at ih; simp at ih
    | some xs =>
      rw [hr] at ih
      have hxs : bytesOfInt16 xs = rest := by simpa using ih
      have hpair := bytesOfInt16_cons_pair lo hi xs (hb lo (by simp)) (hb hi (by simp))
      simp [int16OfBytes?, hr, hpair, hxs]

/-- The stereo branch of the playback path performs left-channel
decimation at the byte level: the payload keeps the byte pairs of samples
0, 2, 4, … -/
theorem forwardPayload_stereo : ∀ d : List Nat, (∀ b ∈ d, b < 256) → d.length % 2 = 0 →
    forwardPayload? 2 d = some (everyOtherPair d)
  | [], _, _ => rfl
  | [_], _, h => by
    exfalso
    simp only [List.length_cons, List.length_nil] at h
    omega
  | [lo, hi], hb, _ => by
    have hpair : bytesOfInt16 [sint16 lo hi] = [lo, hi] := by
      rw [bytesOfInt16_cons_pair lo hi [] (hb lo (by simp)) (hb hi (by simp))]
      rfl
    simp [forwardPayload?, int16OfBytes?, everyOther, everyOtherPair, hpair]
  | [_, _, _], _, h => by
    exfalso
    simp only [List.length_cons, List.length_nil] at h
    omega
  | lo :: hi :: l2 :: h2 :: rest, hb, h => by
    have hb' : ∀ b ∈ rest, b < 256 := fun b hbm => hb b (by simp [hbm])
    have h' : rest.length % 2 = 0 := by
      simp only [List.length_cons] at h
      omega
    have ih := forwardPayload_stereo rest hb' h'
    cases hr : int16OfBytes? rest with
    | none => rw [forwardPayload?, hr] at ih; simp at ih
    | some xs =>
      have hxs : bytesOfInt16 (everyOther xs) = everyOtherPair rest := by
        rw [forwardPayload?, hr] at ih
        simpa using ih
      have hpair := bytesOfInt16_cons_pair lo hi (everyOther xs)
        (hb lo (by simp)) (hb hi (by simp))
      simp [forwardPayload?, int16OfBytes?, hr, everyOther, everyOtherPair, hpair, hxs]

/-! ## Claims -/

/-- C6: `end_session` invoked while the session is already idle is a no-op,
producing no outgoing message and no state change; and since the transition
always leaves the session inactive, running it twice in immediate
succession is equivalent to running it once. -/
theorem end_session_idle_noop_idempotent (s : DeviceSession) :
    (s.is_active = false → s.end_session = { st := s, out := [] }) ∧
    s.end_session.st.end_session = { st := s.end_session.st, out := [] } :=
  ⟨end_session_of_inactive s, end_session_of_inactive _ (end_session_st_is_active s)⟩

/-- Concrete instance of the idle no-op and of the second-call no-op. -/
theorem end_session_idle_noop_idempotent_witness :
    (DeviceSession.new 0).end_session = { st := DeviceSession.new 0, out := [] } ∧
    (DeviceSession.new 0).end_session.st.end_session
      = { st := (DeviceSession.new 0).end_session.st, out := [] } :=
  ⟨(end_session_idle_noop_idempotent (DeviceSession.new 0)).1 rfl,
   (end_session_idle_noop_idempotent (DeviceSession.new 0)).2⟩

/-- C7: a binary audio frame received while the session is not active is
silently dropped: `process_audio_chunk` forwards nothing to the room's
capture entry point and leaves the session, including `audio_frames_sent`,
unchanged — and it is not an error. -/
theorem inactive_frame_dropped (s : DeviceSession) (d : List Nat) (cap : Bool)
    (h : s.is_active = false) :
    s.process_audio_chunk d cap = { st := s, forwarded := false } := by
  simp [DeviceSession.process_audio_chunk, h]

/-- Concrete instance: a frame arriving on a fresh (idle) session. -/
theorem inactive_frame_dropped_witness :
    (DeviceSession.new 0).process_audio_chunk [1, 0] true
      = { st := DeviceSession.new 0, forwarded := false } :=
  inactive_frame_dropped (DeviceSession.new 0) [1, 0] true rfl

/-- C10: a binary frame with an odd byte length received while active is
dropped inside the guarded block: the int16 decode fails, the frame is not
forwarded, `audio_frames_sent` and all other session state are unchanged,
and `_handle_message` does not raise, so neither the session nor the
connection is terminated. -/
theorem odd_length_frame_dropped (s : DeviceSession) (d : List Nat) (cap : Bool)
    (env : Env) (ha : s.is_active = true) (hd : d.length % 2 = 1) :
    s.process_audio_chunk d cap = { st := s, forwarded := false } ∧
    handleMessage s (InMsg.binary d) env = { st := s, out := [], raised := false } := by
  have hdec := int16OfBytes_odd d hd
  have h1 : ∀ c : Bool, s.process_audio_chunk d c = { st := s, forwarded := false } := by
    intro c
    unfold DeviceSession.process_audio_chunk
    split
    · rfl
    · rw [hdec]
  refine ⟨h1 cap, ?_⟩
  rw [handleMessage, h1 env.captureOk]

/-- Concrete instance: a 3-byte frame on an active session. -/
theorem odd_length_frame_dropped_witness :
    (((DeviceSession.new 0).start_session "a" true true).st.process_audio_chunk
        [1, 2, 3] true
      = { st := ((DeviceSession.new 0).start_session "a" true true).st,
          forwarded := false }) ∧
    handleMessage ((DeviceSession.new 0).start_session "a" true true).st
        (InMsg.binary [1, 2, 3]) { connectOk := true, publishOk := true, captureOk := true }
      = { st := ((DeviceSession.new 0).start_session "a" true true).st,
          out := [], raised := false } :=
  odd_length_frame_dropped _ _ _ _ rfl rfl

/-- C9: however the remote-frame stream of a playback-forwarding task ends
(stream exhausted, stream fault, frame decode fault, or the device socket
closing during a send), the task's output begins with
`agent_speaking_start` and its final message is `agent_speaking_end`, sent
from the `finally` block. -/
theorem agent_speaking_end_guaranteed (events : List StreamEvent) :
    (forward_agent_audio events).head? = some OutMsg.agentSpeakingStart ∧
    (forward_agent_audio events).getLast? = some OutMsg.agentSpeakingEnd := by
  constructor
  · rfl
  · rw [forward_agent_audio, ← List.cons_append, List.getLast?_append_cons]
    rfl

/-- C8: on the playback path, the device payload for a two-channel frame
is the left-channel decimation of the input — every other 16-bit sample,
byte-exact (`everyOtherPair` keeps the byte pairs of samples 0, 2, 4, …) —
while a frame that is not two-channel is forwarded unmodified. -/
theorem downmix_left_channel (nc : Nat) (d : List Nat)
    (hb : ∀ b ∈ d, b < 256) (hl : d.length % 2 = 0) :
    forwardPayload? nc d = some (if nc = 2 then everyOtherPair d else d) := by
  by_cases h2 : nc = 2
  · rw [if_pos h2, h2]
    exact forwardPayload_stereo d hb hl
  · have h := int16_decode_encode d hb hl
    rw [if_neg h2, forwardPayload?]
    cases hr : int16OfBytes? d with
    | none => rw [hr] at h; simp at h
    | some xs =>
      rw [hr] at h
      have hxs : bytesOfInt16 xs = d := by simpa using h
      simp [h2, hxs]

/-- Concrete instance: stereo samples `[L0, R0, L1, R1]` (bytes
`[10,11], [20,21], [30,31], [40,41]`) forward as `[L0, L1]`, and a mono
frame forwards byte-identically. -/
theorem downmix_left_channel_witness :
    forwardPayload? 2 [10, 11, 20, 21, 30, 31, 40, 41] = some [10, 11, 30, 31] ∧
    forwardPayload? 1 [10, 11, 20, 21] = some [10, 11, 20, 21] := by
  refine ⟨?_, ?_⟩
  · rw [downmix_left_channel 2 [10, 11, 20, 21, 30, 31, 40, 41] (by decide) (by decide)]
    decide
  · rw [downmix_left_channel 1 [10, 11, 20, 21] (by decide) (by decide)]
    decide

/-- C3: for a session that starts successfully, the `frames_sent` value
carried by the `session_ended` message equals exactly the number of binary
frames whose decode and room capture both succeeded during that session —
failed frames are not counted, and the counter was reset to zero by
`start_session`. -/
theorem frames_sent_counts_forwarded (s0 : DeviceSession) (sid : String)
    (chunks : List (List Nat × Bool)) :
    (runChunks ((s0.start_session sid true true).st) chunks).end_session.out
      = [OutMsg.sessionEnded (some sid)
          (chunks.countP fun c => (int16OfBytes? c.1).isSome && c.2)] := by
  have hrun := runChunks_active chunks ((s0.start_session sid true true).st) rfl rfl
  rw [hrun]
  simp [DeviceSession.end_session, DeviceSession.start_session]

/-- C1 counterexample: with a session already active (after a successful
start of session "a"), a second `start_session` ("b") is not rejected and
the `DeviceSession` state does not stay unchanged: `session_id` is
replaced and the resulting state differs. -/
theorem start_session_not_rejected_cex :
    (((DeviceSession.new 0).start_session "a" true true).st.is_active = true) ∧
    ((((DeviceSession.new 0).start_session "a" true true).st.start_session
        "b" true true).st.session_id = some "b") ∧
    ((((DeviceSession.new 0).start_session "a" true true).st.start_session
        "b" true true).st
      ≠ ((DeviceSession.new 0).start_session "a" true true).st) := by
  decide

/-- C1 (amended): a `start_session` received while the session is not idle
is not rejected; `start_session` unconditionally restarts the session in
place: `session_id` becomes the new id, the frame counter is reset to
zero, a room handle is installed in place of the previous one (which is
dropped without a disconnect), and the session stays active. -/
theorem start_session_overwrites_active (s : DeviceSession) (sid : String)
    (cOk pOk : Bool) (h : s.is_active = true) :
    (s.start_session sid cOk pOk).st.session_id = some sid ∧
    (s.start_session sid cOk pOk).st.audio_frames_sent = 0 ∧
    (s.start_session sid cOk pOk).st.is_active = true ∧
    (s.start_session sid cOk pOk).st.room.isSome = true := by
  unfold DeviceSession.start_session
  cases cOk <;> cases pOk <;> simp

/-- Concrete instance of the overwrite, on an active session. -/
theorem start_session_overwrites_active_witness :
    ((((DeviceSession.new 0).start_session "a" true true).st.start_session
        "b" false true).st.session_id = some "b") ∧
    ((((DeviceSession.new 0).start_session "a" true true).st.start_session
        "b" false true).st.audio_frames_sent = 0) ∧
    ((((DeviceSession.new 0).start_session "a" true true).st.start_session
        "b" false true).st.is_active = true) ∧
    ((((DeviceSession.new 0).start_session "a" true true).st.start_session
        "b" false true).st.room.isSome = true) :=
  start_session_overwrites_active _ "b" false true rfl

/-- C5: in every session state reachable through completed operations
(creation, `start_session` with any adapter outcome, `end_session`,
`process_audio_chunk`), `session_id` is non-null exactly when the session
is not idle, a room handle exists exactly when the session is not idle,
and the session's single `room` field holds at most one handle. -/
theorem reachable_session_invariant (s : DeviceSession) (h : Reachable s) :
    (s.session_id.isSome = true ↔ s.is_active = true) ∧
    (s.room.isSome = true ↔ s.is_active = true) ∧
    (∀ r1 r2 : Room, s.room = some r1 → s.room = some r2 → r1 = r2) := by
  induction h with
  | init d => simp [DeviceSession.new]
  | start s sid cOk pOk _ _ =>
    unfold DeviceSession.start_session
    cases cOk <;> cases pOk <;> simp
  | ended s _ ih =>
    cases hb : s.is_active with
    | false =>
      rw [end_session_of_inactive s hb]
      simpa using ih
    | true => simp [DeviceSession.end_session, hb]
  | audio s d cap _ ih =>
    have hp := process_audio_chunk_preserves s d cap
    rw [hp.1, hp.2.1, hp.2.2.2.1]
    exact ih

/-- Concrete instance of the invariant at a freshly created session. -/
theorem reachable_session_invariant_witness :
    ((DeviceSession.new 0).session_id.isSome = true
        ↔ (DeviceSession.new 0).is_active = true) ∧
    ((DeviceSession.new 0).room.isSome = true
        ↔ (DeviceSession.new 0).is_active = true) ∧
    (∀ r1 r2 : Room, (DeviceSession.new 0).room = some r1 →
        (DeviceSession.new 0).room = some r2 → r1 = r2) :=
  reachable_session_invariant (DeviceSession.new 0) (Reachable.init 0)

/-- Closed form of `handle_device`: loop output, then the `finally`
cleanup (end-session exactly when still active, registry entry removed). -/
theorem handle_device_eq (b : UMIBridge) (dev : Nat)
    (script : List (InMsg × Env)) (ce : ConnEnd) :
    b.handle_device dev script ce =
      { bridge := (UMIBridge.mk ((dev, DeviceSession.new dev) :: b.devices)).delDevice dev,
        st := if (runLoop (DeviceSession.new dev) script).st.is_active
              then (runLoop (DeviceSession.new dev) script).st.end_session.st
              else (runLoop (DeviceSession.new dev) script).st,
        out := (runLoop (DeviceSession.new dev) script).out ++
               (if (runLoop (DeviceSession.new dev) script).st.is_active
                then (runLoop (DeviceSession.new dev) script).st.end_session.out
                else []) } := by
  unfold UMIBridge.handle_device
  cases hb : (runLoop (DeviceSession.new dev) script).st.is_active <;> simp [hb]

/-- C4: however the receive loop of `handle_device` terminates — the peer
closing the socket, an I/O fault, or an exception escaping message
handling (`raised`) — the `finally` cleanup runs exactly once: the
end-session transition is applied precisely when the session is still
active, the resulting session is idle, the device's registry entry is
gone, and nothing depends on the termination mode. -/
theorem handle_device_cleanup (b : UMIBridge) (dev : Nat)
    (script : List (InMsg × Env)) (ce : ConnEnd) :
    ((b.handle_device dev script ce).bridge.lookupDevice dev = none) ∧
    ((b.handle_device dev script ce).st.is_active = false) ∧
    ((b.handle_device dev script ce).st
      = (if (runLoop (DeviceSession.new dev) script).st.is_active
         then (runLoop (DeviceSession.new dev) script).st.end_session.st
         else (runLoop (DeviceSession.new dev) script).st)) ∧
    ((b.handle_device dev script ce).out
      = (runLoop (DeviceSession.new dev) script).out
        ++ (if (runLoop (DeviceSession.new dev) script).st.is_active
            then (runLoop (DeviceSession.new dev) script).st.end_session.out
            else [])) ∧
    (∀ ce' : ConnEnd, b.handle_device dev script ce' = b.handle_device dev script ce) := by
  rw [handle_device_eq]
  refine ⟨lookupDevice_delDevice _ dev, ?_, rfl, rfl, fun ce' => handle_device_eq b dev script ce'⟩
  cases hb : (runLoop (DeviceSession.new dev) script).st.is_active with
  | false => simp [hb]
  | true => simp [hb, end_session_st_is_active]

/-- C2: when the room connect step of a `start_session` attempt fails, the
raised error aborts the receive loop and the `finally` cleanup leaves the
session back in the idle state — not active, no `session_id`, no room
handle — rather than stranded mid-start; the failure is surfaced to the
device through the wire vocabulary as a terminal `session_ended` for the
failed id (with no `session_started` ever sent for it), followed by the
connection closing. -/
theorem connect_failure_reverts_to_idle (b : UMIBridge) (dev : Nat)
    (pre post : List (InMsg × Env)) (sid : String) (env : Env) (ce : ConnEnd)
    (hc : env.connectOk = false)
    (hpre : (runLoop (DeviceSession.new dev) pre).raised = false) :
    ((b.handle_device dev
        (pre ++ (InMsg.text (TextMsg.startSession sid), env) :: post) ce).st.is_active
      = false) ∧
    ((b.handle_device dev
        (pre ++ (InMsg.text (TextMsg.startSession sid), env) :: post) ce).st.session_id
      = none) ∧
    ((b.handle_device dev
        (pre ++ (InMsg.text (TextMsg.startSession sid), env) :: post) ce).st.room
      = none) ∧
    ((b.handle_device dev
        (pre ++ (InMsg.text (TextMsg.startSession sid), env) :: post) ce).out
      = (runLoop (DeviceSession.new dev) pre).out
        ++ [OutMsg.sessionEnded (some sid) 0]) := by
  have hloop := runLoop_append pre ((InMsg.text (TextMsg.startSession sid), env) :: post)
    (DeviceSession.new dev) hpre
  have hstep : runLoop (runLoop (DeviceSession.new dev) pre).st
      ((InMsg.text (TextMsg.startSession sid), env) :: post)
      = { st := { (runLoop (DeviceSession.new dev) pre).st with
                    session_id := some sid, is_active := true, audio_frames_sent := 0,
                    room := some { connected := false } },
          out := [], raised := true } := by
    rw [runLoop]
    simp [handleMessage, DeviceSession.start_session, hc]
  rw [handle_device_eq, hloop, hstep]
  simp [DeviceSession.end_session]

/-- Concrete instance: a lone `start_session` whose connect fails, on a
fresh connection. -/
theorem connect_failure_reverts_to_idle_witness :
    (((UMIBridge.mk []).handle_device 0
        ([] ++ (InMsg.text (TextMsg.startSession "s"),
                ({ connectOk := false, publishOk := true, captureOk := true } : Env)) :: [])
        ConnEnd.peerClosed).st.is_active = false) ∧
    (((UMIBridge.mk []).handle_device 0
        ([] ++ (InMsg.text (TextMsg.startSession "s"),
                ({ connectOk := false, publishOk := true, captureOk := true } : Env)) :: [])
        ConnEnd.peerClosed).st.session_id = none) ∧
    (((UMIBridge.mk []).handle_device 0
        ([] ++ (InMsg.text (TextMsg.startSession "s"),
                ({ connectOk := false, publishOk := true, captureOk := true } : Env)) :: [])
        ConnEnd.peerClosed).st.room = none) ∧
    (((UMIBridge.mk []).handle_device 0
        ([] ++ (InMsg.text (TextMsg.startSession "s"),
                ({ connectOk := false, publishOk := true, captureOk := true } : Env)) :: [])
        ConnEnd.peerClosed).out
      = (runLoop (DeviceSession.new 0) []).out ++ [OutMsg.sessionEnded (some "s") 0]) :=
  connect_failure_reverts_to_idle (UMIBridge.mk []) 0 [] []
    "s" { connectOk := false, publishOk := true, captureOk := true }
    ConnEnd.peerClosed rfl rfl
